import Mathlib

/-!
# Verification of the Data Detective Academy session-lifecycle core

Shallow embedding of `backend/app/auth.py` and `backend/app/routes/auth.py`:
the credential store (users, refresh tokens, password-reset tokens) and the
operations register, login, refresh, logout, password-reset request and
password-reset confirm.

Modelling conventions:
* Database tables are Lean lists; SQLAlchemy's `.first()` is `List.find?`,
  and an in-place mutation of the found row is `updateFirst`.
* Timestamps are `Nat` (seconds); `datetime.now()` is an explicit `now`
  argument.
* The external JWT library (`jose`) is abstracted as a
  `decode : String → Option JwtPayload` argument: `none` models `JWTError`
  (bad signature, malformed token, or an expired `exp` claim — `jose`
  checks `exp` during decode), `some p` models a successful decode of the
  claims this code reads (`sub`, `type`).  Likewise bcrypt is abstracted as
  `verifyPw`/`hashPw` arguments.
* Python's `int(payload.get("sub"))` is `Option.bind · decimalNat?`:
  `none` models the `TypeError` (missing claim) / `ValueError`
  (non-numeric claim) cases, which the source catches together with
  `JWTError`.  `decimalNat?` parses a non-empty all-digit string; this
  covers every `sub` this system itself issues (`str(user_id)`, with user
  ids non-negative), so the restriction changes no reachable outcome.
* `HTTPException` is the `HTTPError` structure; a raised exception is the
  `.error` branch of `Except`.  Mutating operations thread the store
  explicitly: `Store → Store × result`.
-/

/-- Row of the `users` table (`app/models.py`, class `User`). -/
structure User where
  id : Nat
  email : String
  name : String
  role : String
  password_hash : String
  last_login : Option Nat
deriving Repr, DecidableEq

/-- Row of the `refresh_tokens` table (`app/models.py`, class `RefreshToken`). -/
structure RefreshToken where
  token : String
  user_id : Nat
  expires_at : Nat
  revoked : Bool
deriving Repr, DecidableEq

/-- Row of the `password_reset_tokens` table (`app/models.py`,
class `PasswordResetToken`). -/
structure PasswordResetToken where
  token : String
  user_id : Nat
  expires_at : Nat
  used : Bool
deriving Repr, DecidableEq

/-- The credential store: the three tables the session-lifecycle core touches. -/
structure Store where
  users : List User
  refreshTokens : List RefreshToken
  resetTokens : List PasswordResetToken
deriving Repr, DecidableEq

/-- Model of `fastapi.HTTPException` as raised by this code: a status code, a
`detail` message, and the optional `WWW-Authenticate` header value. -/
structure HTTPError where
  status : Nat
  detail : String
  wwwAuthenticate : Option String
deriving Repr, DecidableEq

/-- Parse of a non-empty, all-digits decimal string, modelling Python's
`int(...)` on the strings this system puts into the `sub` claim
(`str(user_id)`); `none` models the raised `ValueError`/`TypeError`. -/
def decimalNat? (s : String) : Option Nat :=
  if s.data ≠ [] ∧ s.data.all Char.isDigit then
    some (s.data.foldl (fun acc c => acc * 10 + (c.toNat - 48)) 0)
  else none

/-- The claims of a decoded JWT that `verify_refresh_token` reads:
`payload.get("sub")` and `payload.get("type")` (each absent ↦ `none`). -/
structure JwtPayload where
  sub : Option String
  type : Option String
deriving Repr, DecidableEq

/-- The claims put into a freshly issued access token by the login and
refresh routes: `{"sub": user.email, "user_id": user.id, "role": user.role}`. -/
structure AccessClaims where
  sub : String
  user_id : Nat
  role : String
deriving Repr, DecidableEq

/-- Replace the first element satisfying `p` by its image under `f`
(models mutating the row returned by `.first()` and committing). -/
def updateFirst (p : α → Bool) (f : α → α) : List α → List α
  | [] => []
  | x :: xs => if p x then f x :: xs else x :: updateFirst p f xs

/-- Lookup `select(User).where(User.email == email)...first()`. -/
def findUserByEmail (db : Store) (email : String) : Option User :=
  db.users.find? (fun u => u.email == email)

/-- Lookup `db.get(User, user_id)`. -/
def getUser (db : Store) (uid : Nat) : Option User :=
  db.users.find? (fun u => u.id == uid)

/-- Lookup `select(RefreshToken).where(RefreshToken.token == token,
RefreshToken.user_id == user_id)...first()` (the lookup in
`verify_refresh_token`). -/
def findRefreshToken (db : Store) (t : String) (uid : Nat) : Option RefreshToken :=
  db.refreshTokens.find? (fun r => r.token == t && r.user_id == uid)

/-- Lookup `select(RefreshToken).where(RefreshToken.token == token)...first()`
(the lookup in `revoke_refresh_token`). -/
def findRefreshTokenByString (db : Store) (t : String) : Option RefreshToken :=
  db.refreshTokens.find? (fun r => r.token == t)

/-- Lookup `select(PasswordResetToken).where(PasswordResetToken.token == token)...first()`. -/
def findResetToken (db : Store) (t : String) : Option PasswordResetToken :=
  db.resetTokens.find? (fun r => r.token == t)

/-- The generic 401 from `verify_refresh_token` and `revoke_refresh_token`
(`detail="Invalid refresh token"`, no headers). -/
def credentialsException : HTTPError :=
  { status := 401, detail := "Invalid refresh token", wwwAuthenticate := none }

/-- The 401 raised when the stored record is revoked
(`detail="Token has been revoked"`). -/
def revokedException : HTTPError :=
  { status := 401, detail := "Token has been revoked", wwwAuthenticate := none }

/-- The 401 raised when the stored record is past `expires_at`
(`detail="Token has expired"`). -/
def expiredException : HTTPError :=
  { status := 401, detail := "Token has expired", wwwAuthenticate := none }

/-- Embedding of `verify_refresh_token(token, db)` from `app/auth.py`: decode the JWT and
parse its `sub`/`type` claims, look the token string up in the store
(keyed on both the string and the parsed user id), then check the revoked
flag, the stored expiration, and that the user still exists.  Read-only:
it never writes to the store. -/
def verify_refresh_token (decode : String → Option JwtPayload) (now : Nat)
    (token : String) (db : Store) : Except HTTPError User :=
  match decode token with
  | none => .error credentialsException
  | some payload =>
    match payload.sub.bind decimalNat? with
    | none => .error credentialsException
    | some user_id =>
      if payload.type ≠ some "refresh" then
        .error credentialsException
      else
        match findRefreshToken db token user_id with
        | none => .error credentialsException
        | some db_token =>
          if db_token.revoked then
            .error revokedException
          else if now > db_token.expires_at then
            .error expiredException
          else
            match getUser db user_id with
            | none => .error credentialsException
            | some user => .ok user

/-- Embedding of the `refresh_access_token` route from `app/routes/auth.py`: verify the refresh token
and, on success, issue a new access token with the user's email, id and
role.  The handler performs no store write, so the store is returned
unchanged on every path. -/
def refresh_access_token (decode : String → Option JwtPayload) (now : Nat)
    (token : String) (db : Store) : Store × Except HTTPError AccessClaims :=
  match verify_refresh_token decode now token db with
  | .error e => (db, .error e)
  | .ok user => (db, .ok { sub := user.email, user_id := user.id, role := user.role })

/-- The 401 from `login` (`detail="Incorrect email or password"`,
`headers={"WWW-Authenticate": "Bearer"}`) — one shared value for both the
unknown-email and the wrong-password branch. -/
def invalidCredentialsException : HTTPError :=
  { status := 401, detail := "Incorrect email or password", wwwAuthenticate := some "Bearer" }

/-- The response body of a successful login: access token claims, the
token-type label, and the freshly stored refresh token string. -/
structure LoginSuccess where
  access_token : AccessClaims
  token_type : String
  refresh_token : String
deriving Repr, DecidableEq

/-- Constant `REFRESH_TOKEN_EXPIRE_DAYS = 7`, as seconds. -/
def refreshTokenLifetime : Nat := 7 * 24 * 60 * 60

/-- Constant `PASSWORD_RESET_TOKEN_EXPIRE_HOURS = 1`, as seconds. -/
def resetTokenLifetime : Nat := 1 * 60 * 60

/-- Embedding of `create_refresh_token(user_id, db)` from `app/auth.py`: store a new
refresh-token row with `revoked=False` and a 7-day expiration, returning
the token string.  The JWT-encoding of the string is external
(`jwt.encode`), so the fresh string is the `newTok` argument. -/
def create_refresh_token (newTok : String) (now : Nat) (user_id : Nat)
    (db : Store) : Store × String :=
  ({ db with refreshTokens := db.refreshTokens ++
      [{ token := newTok, user_id := user_id,
         expires_at := now + refreshTokenLifetime, revoked := false }] },
   newTok)

/-- Embedding of the `login` route from `app/routes/auth.py`: look the user up by email; if absent or
the password does not verify against the stored hash, fail with the single
generic 401; otherwise update `last_login`, issue an access token with the
user's email/id/role and store a fresh refresh token. -/
def login (verifyPw : String → String → Bool) (now : Nat) (newTok : String)
    (email password : String) (db : Store) : Store × Except HTTPError LoginSuccess :=
  match findUserByEmail db email with
  | none => (db, .error invalidCredentialsException)
  | some user =>
    if verifyPw password user.password_hash = false then
      (db, .error invalidCredentialsException)
    else
      let users1 := updateFirst (fun u => u.email == email)
        (fun u => { u with last_login := some now }) db.users
      let db1 : Store := { db with users := users1 }
      let db2 := (create_refresh_token newTok now user.id db1).1
      (db2, .ok { access_token := { sub := user.email, user_id := user.id, role := user.role },
                  token_type := "bearer", refresh_token := newTok })

/-- Embedding of `revoke_refresh_token(token, db)` from `app/auth.py`: look the token
string up; 401 `"Invalid refresh token"` if absent, the same 401 if the
row is already revoked; otherwise set `revoked = True`, commit, and
return `True` — note the Python function returns a `bool`, not a user. -/
def revoke_refresh_token (token : String) (db : Store) : Store × Except HTTPError Bool :=
  match findRefreshTokenByString db token with
  | none => (db, .error credentialsException)
  | some db_token =>
    if db_token.revoked then
      (db, .error credentialsException)
    else
      ({ db with refreshTokens :=
          updateFirst (fun r => r.token == token) (fun r => { r with revoked := true }) db.refreshTokens },
       .ok true)

/-- Outcome of the `logout` route as seen by the HTTP client: the success
body, a raised `HTTPException`, or an uncaught Python exception
(propagated to the framework as a server error). -/
inductive LogoutResult where
  | success (message : String)
  | httpError (e : HTTPError)
  | uncaught (exceptionName : String)
deriving Repr, DecidableEq

/-- Python attribute access `x.email` where `x` is the `bool` returned by
`revoke_refresh_token`: a `bool` has no `email` attribute, so this always
raises `AttributeError`. -/
def boolEmailAttr : Bool → Option String := fun _ => none

/-- Embedding of the `logout` route from `app/routes/auth.py`: it calls
`user = revoke_refresh_token(request.refresh_token, session)` — which
returns `True` on success — then runs
`if user: logger.info(f"User logged out: {user.email}", ...)`.
`True` is truthy and has no `email` attribute, so the f-string raises
`AttributeError` after the revocation has already been committed; the
`return {"message": "Successfully logged out"}` line is never reached on
the success path. -/
def logout (token : String) (db : Store) : Store × LogoutResult :=
  match revoke_refresh_token token db with
  | (db2, .error e) => (db2, .httpError e)
  | (db2, .ok user) =>
    if user then
      match boolEmailAttr user with
      | none => (db2, .uncaught "AttributeError")
      | some _ => (db2, .success "Successfully logged out")
    else
      (db2, .success "Successfully logged out")

/-- The generic 401 from `verify_and_use_reset_token`
(`detail="Invalid or expired reset token"`), shared by all four failure
causes. -/
def invalidResetTokenException : HTTPError :=
  { status := 401, detail := "Invalid or expired reset token", wwwAuthenticate := none }

/-- Embedding of `verify_and_use_reset_token(token, new_password, db)` from `app/auth.py`:
find the token row (else fail), fail if already used, fail if expired,
fail if the owning user no longer exists; otherwise set the user's
`password_hash` to the hash of the new password and the token's `used`
flag to `True`, committing both in one commit.  Every failure path raises
before any mutation. -/
def verify_and_use_reset_token (hashPw : String → String) (now : Nat)
    (token new_password : String) (db : Store) : Store × Except HTTPError Bool :=
  match findResetToken db token with
  | none => (db, .error invalidResetTokenException)
  | some db_token =>
    if db_token.used then
      (db, .error invalidResetTokenException)
    else if now > db_token.expires_at then
      (db, .error invalidResetTokenException)
    else
      match getUser db db_token.user_id with
      | none => (db, .error invalidResetTokenException)
      | some _user =>
        ({ db with
            users := updateFirst (fun u => u.id == db_token.user_id)
              (fun u => { u with password_hash := hashPw new_password }) db.users,
            resetTokens := updateFirst (fun r => r.token == token)
              (fun r => { r with used := true }) db.resetTokens },
         .ok true)

/-- Embedding of `create_password_reset_token(email, db)` from `app/auth.py`: find the user
by email; return `none` (and write nothing) if absent; otherwise store a
new reset-token row (`used=False`, 1-hour expiration) with a fresh opaque
string (`secrets.token_urlsafe(32)`, external randomness, passed as
`newTok`) and return it. -/
def create_password_reset_token (newTok : String) (now : Nat) (email : String)
    (db : Store) : Store × Option String :=
  match findUserByEmail db email with
  | none => (db, none)
  | some user =>
    ({ db with resetTokens := db.resetTokens ++
        [{ token := newTok, user_id := user.id,
           expires_at := now + resetTokenLifetime, used := false }] },
     some newTok)

/-- Embedding of the `register_user` route from `app/routes/auth.py`: 400 `"Email already registered"`
if the email exists; otherwise store a new user with the hashed password.
The id is the database's autoincrement, modelled as one more than the
largest id present. -/
def register_user (hashPw : String → String) (email name password role : String)
    (db : Store) : Store × Except HTTPError User :=
  match findUserByEmail db email with
  | some _ => (db, .error { status := 400, detail := "Email already registered",
                            wwwAuthenticate := none })
  | none =>
    let newUser : User :=
      { id := (db.users.map User.id).foldr max 0 + 1, email := email, name := name,
        role := role, password_hash := hashPw password, last_login := none }
    ({ db with users := db.users ++ [newUser] }, .ok newUser)

/-- One invocation of any operation of the session-lifecycle core, with
its external inputs (clock, fresh token strings, abstracted crypto). -/
inductive Op where
  | opRegister (hashPw : String → String) (email name password role : String)
  | opLogin (verifyPw : String → String → Bool) (now : Nat) (newTok email password : String)
  | opRefresh (decode : String → Option JwtPayload) (now : Nat) (token : String)
  | opLogout (token : String)
  | opResetRequest (newTok : String) (now : Nat) (email : String)
  | opResetConfirm (hashPw : String → String) (now : Nat) (token new_password : String)

/-- The store after running one operation. -/
def Op.apply (db : Store) : Op → Store
  | .opRegister hashPw email name password role => (register_user hashPw email name password role db).1
  | .opLogin verifyPw now newTok email password => (login verifyPw now newTok email password db).1
  | .opRefresh decode now token => (refresh_access_token decode now token db).1
  | .opLogout token => (logout token db).1
  | .opResetRequest newTok now email => (create_password_reset_token newTok now email db).1
  | .opResetConfirm hashPw now token new_password =>
      (verify_and_use_reset_token hashPw now token new_password db).1

/-! ## Helper lemmas about the store primitives -/

theorem updateFirst_cons_pos (p : α → Bool) (f : α → α) (a : α) (t : List α)
    (hpa : p a = true) : updateFirst p f (a :: t) = f a :: t := by
  simp [updateFirst, hpa]

theorem updateFirst_cons_neg (p : α → Bool) (f : α → α) (a : α) (t : List α)
    (hpa : ¬ p a = true) : updateFirst p f (a :: t) = a :: updateFirst p f t := by
  simp [updateFirst, hpa]

theorem find?_updateFirst_same (p : α → Bool) (f : α → α)
    (hf : ∀ y, p y = true → p (f y) = true) :
    ∀ (l : List α) (x : α), l.find? p = some x →
      (updateFirst p f l).find? p = some (f x) := by
  intro l
  induction l with
  | nil => intro x hx; simp [List.find?] at hx
  | cons a t ih =>
    intro x hx
    by_cases hpa : p a = true
    · rw [List.find?_cons_of_pos _ hpa] at hx
      cases hx
      rw [updateFirst_cons_pos p f a t hpa]
      rw [List.find?_cons_of_pos _ (hf a hpa)]
    · rw [List.find?_cons_of_neg _ hpa] at hx
      rw [updateFirst_cons_neg p f a t hpa]
      rw [List.find?_cons_of_neg _ hpa]
      exact ih x hx

theorem find?_updateFirst_isSome (p q : α → Bool) (f : α → α)
    (hf : ∀ y, p (f y) = p y) :
    ∀ l : List α, ((updateFirst q f l).find? p).isSome = (l.find? p).isSome := by
  intro l
  induction l with
  | nil => rfl
  | cons a t ih =>
    by_cases hqa : q a = true
    · rw [updateFirst_cons_pos q f a t hqa]
      by_cases hpa : p a = true
      · rw [List.find?_cons_of_pos _ hpa, List.find?_cons_of_pos _ ((hf a).trans hpa)]
        rfl
      · rw [List.find?_cons_of_neg _ hpa,
          List.find?_cons_of_neg _ (fun hc => hpa ((hf a) ▸ hc))]
    · rw [updateFirst_cons_neg q f a t hqa]
      by_cases hpa : p a = true
      · rw [List.find?_cons_of_pos _ hpa, List.find?_cons_of_pos _ hpa]
      · rw [List.find?_cons_of_neg _ hpa, List.find?_cons_of_neg _ hpa]
        exact ih

theorem updateFirst_getElem? (p : α → Bool) (f : α → α) :
    ∀ (l : List α) (i : Nat), (updateFirst p f l)[i]? = l[i]? ∨
      ∃ x, l[i]? = some x ∧ (updateFirst p f l)[i]? = some (f x) := by
  intro l
  induction l with
  | nil => intro i; left; rfl
  | cons a t ih =>
    intro i
    by_cases hpa : p a = true
    · rw [updateFirst_cons_pos p f a t hpa]
      cases i with
      | zero => right; exact ⟨a, by simp, by simp⟩
      | succ j => left; simp
    · rw [updateFirst_cons_neg p f a t hpa]
      cases i with
      | zero => left; simp
      | succ j =>
        rcases ih j with h | ⟨x, hx, hx'⟩
        · left; simpa using h
        · right; exact ⟨x, by simpa using hx, by simpa using hx'⟩

/-- Positionwise monotonicity of a boolean flag between two table states:
every row position of `l` still exists in `l'`, and the flag, once set at
a position, stays set there. -/
def flagMono (flag : α → Bool) (l l' : List α) : Prop :=
  ∀ (i : Nat) (x : α), l[i]? = some x →
    ∃ y, l'[i]? = some y ∧ (flag x = true → flag y = true)

theorem flagMono_refl (flag : α → Bool) (l : List α) : flagMono flag l l :=
  fun _ x hx => ⟨x, hx, fun h => h⟩

theorem flagMono_append (flag : α → Bool) (l l2 : List α) :
    flagMono flag l (l ++ l2) := by
  intro i x hx
  refine ⟨x, ?_, fun h => h⟩
  have hi : i < l.length := by
    by_contra hge
    rw [List.getElem?_eq_none (Nat.le_of_not_lt hge)] at hx
    exact Option.noConfusion hx
  rw [List.getElem?_append, if_pos hi]
  exact hx

theorem flagMono_updateFirst (flag : α → Bool) (p : α → Bool) (f : α → α)
    (hf : ∀ y, flag y = true → flag (f y) = true) (l : List α) :
    flagMono flag l (updateFirst p f l) := by
  intro i x hx
  rcases updateFirst_getElem? p f l i with h | ⟨z, hz, hz'⟩
  · exact ⟨x, h.trans hx, fun hh => hh⟩
  · rw [hx] at hz
    cases hz
    exact ⟨f x, hz', hf x⟩

/-! ## Claim theorems -/

/-- The store update performed by a successful `revoke_refresh_token`:
the first row holding the token string gets `revoked = True`. -/
def setRevoked (t : String) (db : Store) : Store :=
  { db with refreshTokens := updateFirst (fun r => r.token == t) (fun r => { r with revoked := true }) db.refreshTokens }

/-- Store with one user and one live (unrevoked, unexpired) refresh token,
used to exercise the logout route. -/
def logoutDemoStore : Store :=
  { users := [{ id := 1, email := "logout@test.com", name := "Logout Test",
                role := "student", password_hash := "h1", last_login := none }],
    refreshTokens := [{ token := "rt1", user_id := 1, expires_at := 1000, revoked := false }],
    resetTokens := [] }

/-- C2: for a logout request presenting a refresh token that exists in the
store and is not yet revoked, the code commits `revoked = true` but then
raises an uncaught `AttributeError` (the route reads `.email` off the
`bool` returned by `revoke_refresh_token`), so the caller gets a server
error instead of the success message — refuting the claim that logout
"does not fail or raise after the revocation is applied". -/
theorem logout_raises_after_revocation :
    logout "rt1" logoutDemoStore =
      ({ logoutDemoStore with
          refreshTokens := [{ token := "rt1", user_id := 1, expires_at := 1000, revoked := true }] },
       .uncaught "AttributeError") := by
  rfl

/-- Store with one user and one already-revoked refresh token, used to
compare the two failure causes of `revoke_refresh_token`. -/
def revokeDemoStore : Store :=
  { users := [{ id := 1, email := "rev@test.com", name := "Rev Test",
                role := "student", password_hash := "h1", last_login := none }],
    refreshTokens := [{ token := "r1", user_id := 1, expires_at := 1000, revoked := true }],
    resetTokens := [] }

/-- C8 counterexample: the token string "gone" is absent from the store and
the token string "r1" is present but already revoked, yet
`revoke_refresh_token` produces the *identical* 401 "Invalid refresh token"
error for both — so the two failure causes are not distinguishable to the
caller, contrary to the claim. -/
theorem revoke_errors_identical :
    revoke_refresh_token "gone" revokeDemoStore = (revokeDemoStore, .error credentialsException) ∧
    revoke_refresh_token "r1" revokeDemoStore = (revokeDemoStore, .error credentialsException) :=
  ⟨rfl, rfl⟩

/-- C8 (amended): revoking a refresh token fails for two internally
distinct causes — no record with that token string (NotFound), and record
present but already revoked (AlreadyRevoked) — but both causes raise the
same 401 "Invalid refresh token" error, so the caller cannot distinguish
them; when the record exists and is not yet revoked, the call sets its
revoked flag and returns `True`. -/
theorem revoke_error_cases (t : String) (db : Store) :
    (findRefreshTokenByString db t = none →
      revoke_refresh_token t db = (db, .error credentialsException)) ∧
    (∀ rec, findRefreshTokenByString db t = some rec → rec.revoked = true →
      revoke_refresh_token t db = (db, .error credentialsException)) ∧
    (∀ rec, findRefreshTokenByString db t = some rec → rec.revoked = false →
      revoke_refresh_token t db = (setRevoked t db, .ok true)) := by
  refine ⟨?_, ?_, ?_⟩
  · intro h
    simp [revoke_refresh_token, h]
  · intro rec h hrev
    simp [revoke_refresh_token, h, hrev]
  · intro rec h hrev
    simp [revoke_refresh_token, setRevoked, h, hrev]

/-- Witness for `revoke_error_cases` at concrete inputs: the NotFound
cause ("gone"), the AlreadyRevoked cause ("r1" in `revokeDemoStore`), and
the success cause ("rt1" in `logoutDemoStore`). -/
theorem revoke_error_cases_witness :
    revoke_refresh_token "gone" logoutDemoStore = (logoutDemoStore, .error credentialsException) ∧
    revoke_refresh_token "r1" revokeDemoStore = (revokeDemoStore, .error credentialsException) ∧
    revoke_refresh_token "rt1" logoutDemoStore = (setRevoked "rt1" logoutDemoStore, .ok true) :=
  ⟨(revoke_error_cases "gone" logoutDemoStore).1 rfl,
   (revoke_error_cases "r1" revokeDemoStore).2.1
     { token := "r1", user_id := 1, expires_at := 1000, revoked := true } rfl rfl,
   (revoke_error_cases "rt1" logoutDemoStore).2.2
     { token := "rt1", user_id := 1, expires_at := 1000, revoked := false } rfl rfl⟩

/-- C6: both login failure causes — no user record with the email, and an
existing user whose stored hash does not verify the password — leave the
store untouched and produce the same single generic 401
"Incorrect email or password" response (status, detail and
`WWW-Authenticate` header all identical). -/
theorem login_anti_enumeration (verifyPw : String → String → Bool) (now : Nat)
    (newTok email password : String) (db : Store) :
    (findUserByEmail db email = none →
      login verifyPw now newTok email password db = (db, .error invalidCredentialsException)) ∧
    (∀ user, findUserByEmail db email = some user →
      verifyPw password user.password_hash = false →
      login verifyPw now newTok email password db = (db, .error invalidCredentialsException)) := by
  constructor
  · intro h
    simp [login, h]
  · intro user h hpw
    simp [login, h, hpw]

/-- Witness for `login_anti_enumeration`: in a store whose only user is
alice, a login for an unknown email and a login for alice with a
non-verifying password return the very same response. -/
theorem login_anti_enumeration_witness :
    login (fun _ _ => false) 5 "nt" "bob@example.com" "pw" revokeDemoStore =
      (revokeDemoStore, .error invalidCredentialsException) ∧
    login (fun _ _ => false) 5 "nt" "rev@test.com" "pw" revokeDemoStore =
      (revokeDemoStore, .error invalidCredentialsException) :=
  ⟨(login_anti_enumeration (fun _ _ => false) 5 "nt" "bob@example.com" "pw" revokeDemoStore).1 rfl,
   (login_anti_enumeration (fun _ _ => false) 5 "nt" "rev@test.com" "pw" revokeDemoStore).2
     { id := 1, email := "rev@test.com", name := "Rev Test", role := "student",
       password_hash := "h1", last_login := none } rfl rfl⟩

/-- Case analysis of `verify_refresh_token` once the JWT layer has
produced a well-formed refresh payload whose `sub` parses to `uid`:
the store lookup (token string *and* owner id), the revoked check, the
expiration check and the user lookup, in the source's order, with the
exact error each branch raises. -/
theorem verify_refresh_token_cases (decode : String → Option JwtPayload) (now : Nat)
    (t : String) (db : Store) (s : String) (uid : Nat)
    (hdec : decode t = some { sub := some s, type := some "refresh" })
    (hs : decimalNat? s = some uid) :
    (findRefreshToken db t uid = none →
      verify_refresh_token decode now t db = .error credentialsException) ∧
    (∀ rec, findRefreshToken db t uid = some rec →
      (rec.revoked = true →
        verify_refresh_token decode now t db = .error revokedException) ∧
      (rec.revoked = false → rec.expires_at < now →
        verify_refresh_token decode now t db = .error expiredException) ∧
      (rec.revoked = false → now ≤ rec.expires_at → getUser db uid = none →
        verify_refresh_token decode now t db = .error credentialsException) ∧
      (∀ u, rec.revoked = false → now ≤ rec.expires_at → getUser db uid = some u →
        verify_refresh_token decode now t db = .ok u)) := by
  constructor
  · intro h
    simp [verify_refresh_token, hdec, hs, h]
  · intro rec h
    refine ⟨?_, ?_, ?_, ?_⟩
    · intro hrev
      simp [verify_refresh_token, hdec, hs, h, hrev]
    · intro hrev hexp
      simp [verify_refresh_token, hdec, hs, h, hrev, hexp]
    · intro hrev hexp hu
      simp [verify_refresh_token, hdec, hs, h, hrev, Nat.not_lt.mpr hexp, hu]
    · intro u hrev hexp hu
      simp [verify_refresh_token, hdec, hs, h, hrev, Nat.not_lt.mpr hexp, hu]

/-- Failures of the JWT/claims layer of `verify_refresh_token` (bad
decode, unparsable `sub`, wrong `type` claim) all raise the generic 401. -/
theorem verify_refresh_token_step1 (decode : String → Option JwtPayload) (now : Nat)
    (t : String) (db : Store) :
    (decode t = none →
      verify_refresh_token decode now t db = .error credentialsException) ∧
    (∀ p, decode t = some p → p.sub.bind decimalNat? = none →
      verify_refresh_token decode now t db = .error credentialsException) ∧
    (∀ p, decode t = some p → p.type ≠ some "refresh" →
      verify_refresh_token decode now t db = .error credentialsException) := by
  refine ⟨?_, ?_, ?_⟩
  · intro h
    simp [verify_refresh_token, h]
  · intro p hp hsub
    simp [verify_refresh_token, hp, hsub]
  · intro p hp hty
    cases hsub : p.sub.bind decimalNat? with
    | none => simp [verify_refresh_token, hp, hsub]
    | some uid => simp [verify_refresh_token, hp, hsub, hty]

theorem refresh_of_verify_error (decode : String → Option JwtPayload) (now : Nat)
    (t : String) (db : Store) (e : HTTPError)
    (h : verify_refresh_token decode now t db = .error e) :
    refresh_access_token decode now t db = (db, .error e) := by
  simp [refresh_access_token, h]

theorem refresh_of_verify_ok (decode : String → Option JwtPayload) (now : Nat)
    (t : String) (db : Store) (u : User)
    (h : verify_refresh_token decode now t db = .ok u) :
    refresh_access_token decode now t db =
      (db, .ok { sub := u.email, user_id := u.id, role := u.role }) := by
  simp [refresh_access_token, h]

theorem refresh_store_eq (decode : String → Option JwtPayload) (now : Nat)
    (t : String) (db : Store) : (refresh_access_token decode now t db).1 = db := by
  cases h : verify_refresh_token decode now t db <;> simp [refresh_access_token, h]

/-- Store with two users where the only refresh-token row carries the
token string "tokM" but is owned by user 2, while the token's `sub` claim
names user 1. -/
def mismatchStore : Store :=
  { users := [{ id := 1, email := "one@test.com", name := "One", role := "student",
                password_hash := "h1", last_login := none },
              { id := 2, email := "two@test.com", name := "Two", role := "teacher",
                password_hash := "h2", last_login := none }],
    refreshTokens := [{ token := "tokM", user_id := 2, expires_at := 100, revoked := false }],
    resetTokens := [] }

/-- Decoder under which "tokM" is a cryptographically valid refresh JWT
whose `sub` claim is user 1. -/
def mismatchDecode : String → Option JwtPayload := fun s =>
  if s = "tokM" then some { sub := some "1", type := some "refresh" } else none

/-- C1 counterexample: at this input all five conditions of the claim
hold — (1) the token decodes with claim `type=refresh`; (2) the token
string exists in the store; (3) the stored record's revoked flag is
false; (4) its expiration (100) is after the check time (0); (5) the user
referenced by the token's `sub` claim (user 1) exists — yet refresh fails
with the generic 401, because the code's store lookup additionally
requires the stored record's `user_id` to equal the id in `sub`, and this
record is owned by user 2. -/
theorem refresh_five_checks_not_sufficient :
    mismatchDecode "tokM" = some { sub := some "1", type := some "refresh" } ∧
    findRefreshTokenByString mismatchStore "tokM" =
      some { token := "tokM", user_id := 2, expires_at := 100, revoked := false } ∧
    (0 : Nat) < 100 ∧
    getUser mismatchStore 1 =
      some { id := 1, email := "one@test.com", name := "One", role := "student",
             password_hash := "h1", last_login := none } ∧
    (refresh_access_token mismatchDecode 0 "tokM" mismatchStore).2 = .error credentialsException :=
  ⟨rfl, rfl, by decide, rfl, rfl⟩

/-- C1 (amended): refresh-token validation performs exactly these checks
in this order, each failing terminally if unmet: (1) the token decodes
with a valid signature, its `sub` claim parses to a user id, and it
carries the claim `type=refresh`; (2) a record with the presented token
string *owned by that user id* exists in the store; (3) the record's
revoked flag is false; (4) the record's expiration is not in the past;
(5) the user id resolves to an existing user.  If all hold, refresh
returns a new access token carrying the user's email, id and role. -/
theorem refresh_validation_order (decode : String → Option JwtPayload) (now : Nat)
    (t : String) (db : Store) :
    (decode t = none →
      refresh_access_token decode now t db = (db, .error credentialsException)) ∧
    (∀ p, decode t = some p → p.sub.bind decimalNat? = none →
      refresh_access_token decode now t db = (db, .error credentialsException)) ∧
    (∀ p, decode t = some p → p.type ≠ some "refresh" →
      refresh_access_token decode now t db = (db, .error credentialsException)) ∧
    (∀ s uid, decode t = some { sub := some s, type := some "refresh" } →
      decimalNat? s = some uid →
      (findRefreshToken db t uid = none →
        refresh_access_token decode now t db = (db, .error credentialsException)) ∧
      (∀ rec, findRefreshToken db t uid = some rec →
        (rec.revoked = true →
          refresh_access_token decode now t db = (db, .error revokedException)) ∧
        (rec.revoked = false → rec.expires_at < now →
          refresh_access_token decode now t db = (db, .error expiredException)) ∧
        (rec.revoked = false → now ≤ rec.expires_at → getUser db uid = none →
          refresh_access_token decode now t db = (db, .error credentialsException)) ∧
        (∀ u, rec.revoked = false → now ≤ rec.expires_at → getUser db uid = some u →
          refresh_access_token decode now t db =
            (db, .ok { sub := u.email, user_id := u.id, role := u.role })))) := by
  refine ⟨?_, ?_, ?_, ?_⟩
  · intro h
    exact refresh_of_verify_error _ _ _ _ _ ((verify_refresh_token_step1 decode now t db).1 h)
  · intro p hp hsub
    exact refresh_of_verify_error _ _ _ _ _
      ((verify_refresh_token_step1 decode now t db).2.1 p hp hsub)
  · intro p hp hty
    exact refresh_of_verify_error _ _ _ _ _
      ((verify_refresh_token_step1 decode now t db).2.2 p hp hty)
  · intro s uid hdec hs
    have hc := verify_refresh_token_cases decode now t db s uid hdec hs
    refine ⟨fun h => refresh_of_verify_error _ _ _ _ _ (hc.1 h), ?_⟩
    intro rec hrec
    have h4 := hc.2 rec hrec
    exact ⟨fun hrev => refresh_of_verify_error _ _ _ _ _ (h4.1 hrev),
      fun hrev hexp => refresh_of_verify_error _ _ _ _ _ (h4.2.1 hrev hexp),
      fun hrev hexp hu => refresh_of_verify_error _ _ _ _ _ (h4.2.2.1 hrev hexp hu),
      fun u hrev hexp hu => refresh_of_verify_ok _ _ _ _ _ (h4.2.2.2 u hrev hexp hu)⟩

/-- Witness for `refresh_validation_order`: in `mismatchStore` a valid
JWT for user 2 owning the record "tok2" passes all five (amended) checks
and yields the access claims of user 2. -/
theorem refresh_validation_order_witness :
    refresh_access_token
      (fun s => if s = "tokM" then some { sub := some "2", type := some "refresh" } else none)
      0 "tokM" mismatchStore =
      (mismatchStore, .ok { sub := "two@test.com", user_id := 2, role := "teacher" }) :=
  ((((refresh_validation_order
      (fun s => if s = "tokM" then some { sub := some "2", type := some "refresh" } else none)
      0 "tokM" mismatchStore).2.2.2 "2" 2 rfl rfl).2
    { token := "tokM", user_id := 2, expires_at := 100, revoked := false } rfl).2.2.2
    { id := 2, email := "two@test.com", name := "Two", role := "teacher",
      password_hash := "h2", last_login := none } rfl (by decide) rfl)

/-- Store with one user and one expired (but unrevoked) refresh-token
row "texp". -/
def expiredDemoStore : Store :=
  { users := [{ id := 1, email := "exp@test.com", name := "Exp", role := "student",
                password_hash := "h1", last_login := none }],
    refreshTokens := [{ token := "texp", user_id := 1, expires_at := 10, revoked := false }],
    resetTokens := [] }

/-- Decoder under which every string is a valid refresh JWT for user 1
(isolates the store-side checks). -/
def allValidDecode : String → Option JwtPayload := fun _ =>
  some { sub := some "1", type := some "refresh" }

/-- C3 counterexample: the expired cause is also surfaced with its own
distinguishing message.  At time 11 the stored record "texp"
(expiring at 10) fails with detail "Token has expired", while the
not-found cause ("absent") fails with the generic
"Invalid refresh token" — so the three non-revoked causes do *not* all
produce one identical message, contrary to the claim. -/
theorem refresh_expired_message_distinct :
    verify_refresh_token allValidDecode 11 "texp" expiredDemoStore = .error expiredException ∧
    verify_refresh_token allValidDecode 11 "absent" expiredDemoStore = .error credentialsException ∧
    expiredException ≠ credentialsException :=
  ⟨rfl, rfl, by decide⟩

/-- C3 (amended): among the four internal failure causes of refresh-token
validation, the revoked case is surfaced with the distinguishing message
"Token has been revoked" *and* the expired case with the distinguishing
message "Token has expired"; the remaining two causes — token not found
in the store and referenced user missing — produce the identical generic
"Invalid refresh token" message.  All three error values are pairwise
distinct. -/
theorem refresh_error_surfacing (decode : String → Option JwtPayload) (now : Nat)
    (t : String) (db : Store) (s : String) (uid : Nat)
    (hdec : decode t = some { sub := some s, type := some "refresh" })
    (hs : decimalNat? s = some uid) :
    (findRefreshToken db t uid = none →
      verify_refresh_token decode now t db = .error credentialsException) ∧
    (∀ rec, findRefreshToken db t uid = some rec →
      (rec.revoked = true →
        verify_refresh_token decode now t db = .error revokedException) ∧
      (rec.revoked = false → rec.expires_at < now →
        verify_refresh_token decode now t db = .error expiredException) ∧
      (rec.revoked = false → now ≤ rec.expires_at → getUser db uid = none →
        verify_refresh_token decode now t db = .error credentialsException)) ∧
    (revokedException ≠ credentialsException ∧
     expiredException ≠ credentialsException ∧
     revokedException ≠ expiredException) := by
  have hc := verify_refresh_token_cases decode now t db s uid hdec hs
  refine ⟨hc.1, ?_, by decide, by decide, by decide⟩
  intro rec hrec
  have h4 := hc.2 rec hrec
  exact ⟨h4.1, h4.2.1, h4.2.2.1⟩

/-- Witness for `refresh_error_surfacing`: in a store whose only row for
"texp" is expired, the surfaced message is "Token has expired". -/
theorem refresh_error_surfacing_witness :
    verify_refresh_token allValidDecode 11 "texp" expiredDemoStore = .error expiredException ∧
    verify_refresh_token allValidDecode 11 "gone" expiredDemoStore = .error credentialsException :=
  ⟨((refresh_error_surfacing allValidDecode 11 "texp" expiredDemoStore "1" 1 rfl rfl).2.1
      { token := "texp", user_id := 1, expires_at := 10, revoked := false } rfl).2.1
      rfl (by decide),
   (refresh_error_surfacing allValidDecode 11 "gone" expiredDemoStore "1" 1 rfl rfl).1 rfl⟩

/-- C10: when a record with the presented token string exists in the
store but its `user_id` differs from the id parsed from the token's `sub`
claim, the refresh attempt fails with exactly the generic 401 produced
when the token string is absent from the store — and indeed the run on
the store with those rows removed gives the same result. -/
theorem refresh_user_id_binding (decode : String → Option JwtPayload) (now : Nat)
    (t : String) (db : Store) (s : String) (uid : Nat)
    (hdec : decode t = some { sub := some s, type := some "refresh" })
    (hs : decimalNat? s = some uid)
    (hmis : ∀ r ∈ db.refreshTokens, r.token = t → r.user_id ≠ uid) :
    verify_refresh_token decode now t db = .error credentialsException ∧
    verify_refresh_token decode now t
        { db with refreshTokens := db.refreshTokens.filter (fun r => r.token != t) } =
      .error credentialsException := by
  have hnone : findRefreshToken db t uid = none := by
    apply List.find?_eq_none.mpr
    intro r hr
    simp only [Bool.and_eq_true, beq_iff_eq, not_and]
    intro h1 h2
    exact hmis r hr h1 h2
  have hnone2 : findRefreshToken
      { db with refreshTokens := db.refreshTokens.filter (fun r => r.token != t) } t uid = none := by
    apply List.find?_eq_none.mpr
    intro r hr
    have hne : r.token ≠ t := by
      have := (List.mem_filter.mp hr).2
      simpa using this
    simp only [Bool.and_eq_true, beq_iff_eq, not_and]
    intro h1
    exact absurd h1 hne
  exact ⟨(verify_refresh_token_cases decode now t db s uid hdec hs).1 hnone,
    (verify_refresh_token_cases decode now t _ s uid hdec hs).1 hnone2⟩

/-- Witness for `refresh_user_id_binding`: the "tokM" row of
`mismatchStore` is owned by user 2 while the token's `sub` is user 1. -/
theorem refresh_user_id_binding_witness :
    verify_refresh_token mismatchDecode 0 "tokM" mismatchStore = .error credentialsException ∧
    verify_refresh_token mismatchDecode 0 "tokM"
        { mismatchStore with refreshTokens :=
            mismatchStore.refreshTokens.filter (fun r => r.token != "tokM") } =
      .error credentialsException :=
  refresh_user_id_binding mismatchDecode 0 "tokM" mismatchStore "1" 1 rfl rfl (by decide)

/-- C7: refresh does not rotate or mutate the refresh token: the store —
every user row, every refresh-token row (token string, owner, expiration,
revoked flag) and every reset-token row — is returned unchanged, no new
record is created, and any number of successive refreshes with the same
token at the same instant behave exactly like the first. -/
theorem refresh_no_rotation (decode : String → Option JwtPayload) (now : Nat)
    (t : String) (db : Store) :
    (refresh_access_token decode now t db).1 = db ∧
    ∀ k : Nat, refresh_access_token decode now t
        ((fun s => (refresh_access_token decode now t s).1)^[k] db) =
      refresh_access_token decode now t db := by
  refine ⟨refresh_store_eq decode now t db, fun k => ?_⟩
  have hid : (fun s => (refresh_access_token decode now t s).1) = id :=
    funext (fun s => refresh_store_eq decode now t s)
  rw [hid, Function.iterate_id, id]

/-- The two-field store update of a successful password-reset confirm:
the owning user's hash is replaced and the token row is marked used. -/
def applyReset (hashPw : String → String) (t newPw : String) (uid : Nat) (db : Store) : Store :=
  { db with
      users := updateFirst (fun u => u.id == uid) (fun u => { u with password_hash := hashPw newPw }) db.users,
      resetTokens := updateFirst (fun r => r.token == t) (fun r => { r with used := true }) db.resetTokens }

/-- C4: password-reset confirm is atomic: every invocation either fails
with the generic 401 and returns the store byte-for-byte unchanged (all
four failure causes — token not found, already used, expired, user
missing — raise before any mutation), or succeeds and applies *both*
changes: the stored reset-token row is marked used and the owning user's
password hash becomes the hash of the new password. -/
theorem reset_confirm_atomic (hashPw : String → String) (now : Nat)
    (t newPw : String) (db : Store) :
    verify_and_use_reset_token hashPw now t newPw db = (db, .error invalidResetTokenException) ∨
    (∃ rt u, findResetToken db t = some rt ∧ getUser db rt.user_id = some u ∧
      rt.used = false ∧ now ≤ rt.expires_at ∧
      (verify_and_use_reset_token hashPw now t newPw db).2 = .ok true ∧
      findResetToken (verify_and_use_reset_token hashPw now t newPw db).1 t =
        some { rt with used := true } ∧
      getUser (verify_and_use_reset_token hashPw now t newPw db).1 rt.user_id =
        some { u with password_hash := hashPw newPw }) := by
  cases hrt : findResetToken db t with
  | none =>
    left
    simp [verify_and_use_reset_token, hrt]
  | some rt =>
    by_cases hused : rt.used = true
    · left
      simp [verify_and_use_reset_token, hrt, hused]
    · by_cases hexp : rt.expires_at < now
      · left
        simp [verify_and_use_reset_token, hrt, hused, hexp]
      · cases hu : getUser db rt.user_id with
        | none =>
          left
          simp [verify_and_use_reset_token, hrt, hused, hexp, hu]
        | some u =>
          right
          have hdb : verify_and_use_reset_token hashPw now t newPw db =
              (applyReset hashPw t newPw rt.user_id db, .ok true) := by
            simp [verify_and_use_reset_token, applyReset, hrt, hused, hexp, hu]
          have hrt2 : List.find? (fun r => r.token == t) db.resetTokens = some rt := hrt
          have hu2 : List.find? (fun v => v.id == rt.user_id) db.users = some u := hu
          refine ⟨rt, u, rfl, hu, by simpa using hused, Nat.not_lt.mp hexp, ?_, ?_, ?_⟩
          · rw [hdb]
          · rw [hdb]
            exact find?_updateFirst_same (fun r => r.token == t)
              (fun r => { r with used := true }) (fun y h => h) db.resetTokens rt hrt2
          · rw [hdb]
            exact find?_updateFirst_same (fun v => v.id == rt.user_id)
              (fun v => { v with password_hash := hashPw newPw }) (fun y h => h) db.users u hu2

/-- If two stores have identical refresh-token tables and, for every id,
a user with that id exists in one iff in the other, then refresh-token
verification accepts a token in one store iff it accepts it in the
other. -/
theorem verify_ok_congr (decode : String → Option JwtPayload) (now : Nat) (rt : String)
    (db db' : Store) (hrt : db'.refreshTokens = db.refreshTokens)
    (hus : ∀ uid, (getUser db' uid).isSome = (getUser db uid).isSome) :
    (∃ u, verify_refresh_token decode now rt db' = .ok u) ↔
    (∃ u, verify_refresh_token decode now rt db = .ok u) := by
  unfold verify_refresh_token
  cases hdec : decode rt with
  | none => simp
  | some p =>
    cases hsub : p.sub.bind decimalNat? with
    | none => simp [hsub]
    | some uid =>
      by_cases hty : p.type = some "refresh"
      · have hfind : findRefreshToken db' rt uid = findRefreshToken db rt uid := by
          unfold findRefreshToken
          rw [hrt]
        cases hf : findRefreshToken db rt uid with
        | none => simp [hsub, hty, hfind, hf]
        | some rec =>
          by_cases hrev : rec.revoked = true
          · simp [hsub, hty, hfind, hf, hrev]
          · by_cases hexp : rec.expires_at < now
            · simp [hsub, hty, hfind, hf, hrev, hexp]
            · have h := hus uid
              cases hg' : getUser db' uid with
              | none =>
                cases hg : getUser db uid with
                | none => simp [hsub, hty, hfind, hf, hrev, hexp, hg', hg]
                | some u =>
                  rw [hg', hg] at h
                  simp at h
              | some u' =>
                cases hg : getUser db uid with
                | none =>
                  rw [hg', hg] at h
                  simp at h
                | some u => simp [hsub, hty, hfind, hf, hrev, hexp, hg', hg]
      · simp [hsub, hty]

/-- C9: a password-reset confirm (successful or not) leaves the
refresh-token table completely unchanged, and for every decoder, instant
and token string, refresh-token verification accepts a token after the
confirm iff it accepted it before — so refresh tokens issued before the
reset (for this user or any other) keep working until their own expiry or
explicit revocation. -/
theorem reset_confirm_preserves_refresh_tokens (hashPw : String → String) (now : Nat)
    (t newPw : String) (db : Store) :
    ((verify_and_use_reset_token hashPw now t newPw db).1).refreshTokens = db.refreshTokens ∧
    ∀ decode now2 rt,
      ((∃ u, verify_refresh_token decode now2 rt
          (verify_and_use_reset_token hashPw now t newPw db).1 = .ok u) ↔
        ∃ u, verify_refresh_token decode now2 rt db = .ok u) := by
  have hstore :
      ((verify_and_use_reset_token hashPw now t newPw db).1).refreshTokens = db.refreshTokens ∧
      ∀ uid, (getUser (verify_and_use_reset_token hashPw now t newPw db).1 uid).isSome =
        (getUser db uid).isSome := by
    cases hrt : findResetToken db t with
    | none => simp [verify_and_use_reset_token, hrt]
    | some rt0 =>
      by_cases hused : rt0.used = true
      · simp [verify_and_use_reset_token, hrt, hused]
      · by_cases hexp : rt0.expires_at < now
        · simp [verify_and_use_reset_token, hrt, hused, hexp]
        · cases hu : getUser db rt0.user_id with
          | none => simp [verify_and_use_reset_token, hrt, hused, hexp, hu]
          | some u0 =>
            have hdb : (verify_and_use_reset_token hashPw now t newPw db).1 =
                applyReset hashPw t newPw rt0.user_id db := by
              simp [verify_and_use_reset_token, applyReset, hrt, hused, hexp, hu]
            rw [hdb]
            refine ⟨rfl, fun uid => ?_⟩
            show (List.find? (fun v => v.id == uid)
                (updateFirst (fun v => v.id == rt0.user_id)
                  (fun v => { v with password_hash := hashPw newPw }) db.users)).isSome =
              (List.find? (fun v => v.id == uid) db.users).isSome
            exact find?_updateFirst_isSome (fun v => v.id == uid)
              (fun v => v.id == rt0.user_id)
              (fun v => { v with password_hash := hashPw newPw }) (fun y => rfl) db.users
  exact ⟨hstore.1, fun decode now2 rt =>
    verify_ok_congr decode now2 rt db (verify_and_use_reset_token hashPw now t newPw db).1
      hstore.1 hstore.2⟩

/-- If every stored row carrying the token string is revoked, refresh-token
verification fails (whatever the decoder, clock or other rows). -/
theorem verify_refresh_token_all_revoked (decode : String → Option JwtPayload) (now : Nat)
    (t : String) (db : Store)
    (h : ∀ r ∈ db.refreshTokens, r.token = t → r.revoked = true) :
    ∃ e, verify_refresh_token decode now t db = .error e := by
  unfold verify_refresh_token
  cases hdec : decode t with
  | none => exact ⟨credentialsException, rfl⟩
  | some p =>
    cases hsub : p.sub.bind decimalNat? with
    | none => exact ⟨credentialsException, by simp [hsub]⟩
    | some uid =>
      by_cases hty : p.type = some "refresh"
      · cases hf : findRefreshToken db t uid with
        | none => exact ⟨credentialsException, by simp [hsub, hty, hf]⟩
        | some rec =>
          have hmem : rec ∈ db.refreshTokens := List.mem_of_find?_eq_some
            (show List.find? (fun r => r.token == t && r.user_id == uid) db.refreshTokens
              = some rec from hf)
          have hp := List.find?_some
            (show List.find? (fun r => r.token == t && r.user_id == uid) db.refreshTokens
              = some rec from hf)
          have htok : rec.token = t := by
            simp only [Bool.and_eq_true, beq_iff_eq] at hp
            exact hp.1
          have hrev : rec.revoked = true := h rec hmem htok
          exact ⟨revokedException, by simp [hsub, hty, hf, hrev]⟩
      · exact ⟨credentialsException, by simp [hsub, hty]⟩

/-- If every stored reset-token row carrying the token string is used,
password-reset confirm fails with the generic 401 and leaves the store
unchanged — even if the row is not yet expired. -/
theorem reset_confirm_all_used (hashPw : String → String) (now : Nat)
    (t newPw : String) (db : Store)
    (h : ∀ r ∈ db.resetTokens, r.token = t → r.used = true) :
    verify_and_use_reset_token hashPw now t newPw db =
      (db, .error invalidResetTokenException) := by
  cases hrt : findResetToken db t with
  | none => simp [verify_and_use_reset_token, hrt]
  | some rt0 =>
    have hmem : rt0 ∈ db.resetTokens := List.mem_of_find?_eq_some
      (show List.find? (fun r => r.token == t) db.resetTokens = some rt0 from hrt)
    have hp := List.find?_some
      (show List.find? (fun r => r.token == t) db.resetTokens = some rt0 from hrt)
    have htok : rt0.token = t := by simpa using hp
    have hused : rt0.used = true := h rt0 hmem htok
    simp [verify_and_use_reset_token, hrt, hused]

/-- The store after `revoke_refresh_token`: untouched on failure,
`setRevoked` on success. -/
theorem revoke_store_cases (t : String) (db : Store) :
    revoke_refresh_token t db = (db, .error credentialsException) ∨
    revoke_refresh_token t db = (setRevoked t db, .ok true) := by
  unfold revoke_refresh_token
  cases h : findRefreshTokenByString db t with
  | none => left; simp [h]
  | some rec =>
    by_cases hrev : rec.revoked = true
    · left
      simp [h, hrev]
    · right
      simp [h, hrev, setRevoked]

/-- The store after the `logout` route: untouched on failure, `setRevoked`
on success. -/
theorem logout_store_cases (t : String) (db : Store) :
    (logout t db).1 = db ∨ (logout t db).1 = setRevoked t db := by
  rcases revoke_store_cases t db with h | h
  · left
    simp [logout, h]
  · right
    simp [logout, h, boolEmailAttr]

/-- The store after `login`: untouched on failure; on success the matched
user's `last_login` is set and one fresh refresh-token row is appended. -/
theorem login_store_cases (verifyPw : String → String → Bool) (now : Nat)
    (newTok email password : String) (db : Store) :
    (login verifyPw now newTok email password db).1 = db ∨
    ∃ uid, (login verifyPw now newTok email password db).1 =
      { db with
          users := updateFirst (fun u => u.email == email) (fun u => { u with last_login := some now }) db.users,
          refreshTokens := db.refreshTokens ++ [{ token := newTok, user_id := uid, expires_at := now + refreshTokenLifetime, revoked := false }] } := by
  unfold login
  cases h : findUserByEmail db email with
  | none => left; simp [h]
  | some user =>
    by_cases hv : verifyPw password user.password_hash = false
    · left
      simp [h, hv]
    · right
      refine ⟨user.id, ?_⟩
      simp [h, hv, create_refresh_token]

/-- The store after `create_password_reset_token`: untouched when the
email is unknown; otherwise one fresh reset-token row is appended. -/
theorem reset_request_store_cases (newTok : String) (now : Nat) (email : String) (db : Store) :
    (create_password_reset_token newTok now email db).1 = db ∨
    ∃ uid, (create_password_reset_token newTok now email db).1 =
      { db with resetTokens := db.resetTokens ++ [{ token := newTok, user_id := uid, expires_at := now + resetTokenLifetime, used := false }] } := by
  unfold create_password_reset_token
  cases h : findUserByEmail db email with
  | none => left; simp [h]
  | some user =>
    right
    exact ⟨user.id, by simp [h]⟩

/-- The store after `register_user`: the token tables are never touched. -/
theorem register_store_cases (hashPw : String → String)
    (email name password role : String) (db : Store) :
    ((register_user hashPw email name password role db).1).refreshTokens = db.refreshTokens ∧
    ((register_user hashPw email name password role db).1).resetTokens = db.resetTokens := by
  unfold register_user
  cases h : findUserByEmail db email <;> simp [h]

/-- The store after `verify_and_use_reset_token`: untouched on failure,
`applyReset` for the owning user on success. -/
theorem reset_confirm_store_cases (hashPw : String → String) (now : Nat)
    (t newPw : String) (db : Store) :
    (verify_and_use_reset_token hashPw now t newPw db).1 = db ∨
    ∃ uid, (verify_and_use_reset_token hashPw now t newPw db).1 =
      applyReset hashPw t newPw uid db := by
  cases hrt : findResetToken db t with
  | none => left; simp [verify_and_use_reset_token, hrt]
  | some rt0 =>
    by_cases hused : rt0.used = true
    · left
      simp [verify_and_use_reset_token, hrt, hused]
    · by_cases hexp : rt0.expires_at < now
      · left
        simp [verify_and_use_reset_token, hrt, hused, hexp]
      · cases hu : getUser db rt0.user_id with
        | none => left; simp [verify_and_use_reset_token, hrt, hused, hexp, hu]
        | some u0 =>
          right
          exact ⟨rt0.user_id, by simp [verify_and_use_reset_token, applyReset, hrt, hused, hexp, hu]⟩

/-- No operation of the session-lifecycle core shrinks the token tables
or resets a revoked/used flag: positionwise, rows survive and set flags
stay set. -/
theorem op_flags_mono (op : Op) (db : Store) :
    flagMono RefreshToken.revoked db.refreshTokens (Op.apply db op).refreshTokens ∧
    flagMono PasswordResetToken.used db.resetTokens (Op.apply db op).resetTokens := by
  cases op with
  | opRegister hashPw email name password role =>
    have h := register_store_cases hashPw email name password role db
    show flagMono _ _ ((register_user hashPw email name password role db).1).refreshTokens ∧
      flagMono _ _ ((register_user hashPw email name password role db).1).resetTokens
    rw [h.1, h.2]
    exact ⟨flagMono_refl _ _, flagMono_refl _ _⟩
  | opLogin verifyPw now newTok email password =>
    show flagMono _ _ ((login verifyPw now newTok email password db).1).refreshTokens ∧
      flagMono _ _ ((login verifyPw now newTok email password db).1).resetTokens
    rcases login_store_cases verifyPw now newTok email password db with h | ⟨uid, h⟩
    · rw [h]
      exact ⟨flagMono_refl _ _, flagMono_refl _ _⟩
    · rw [h]
      exact ⟨flagMono_append _ _ _, flagMono_refl _ _⟩
  | opRefresh decode now token =>
    show flagMono _ _ ((refresh_access_token decode now token db).1).refreshTokens ∧
      flagMono _ _ ((refresh_access_token decode now token db).1).resetTokens
    rw [refresh_store_eq]
    exact ⟨flagMono_refl _ _, flagMono_refl _ _⟩
  | opLogout token =>
    show flagMono _ _ ((logout token db).1).refreshTokens ∧
      flagMono _ _ ((logout token db).1).resetTokens
    rcases logout_store_cases token db with h | h
    · rw [h]
      exact ⟨flagMono_refl _ _, flagMono_refl _ _⟩
    · rw [h]
      exact ⟨flagMono_updateFirst _ _ _ (fun y _ => rfl) _, flagMono_refl _ _⟩
  | opResetRequest newTok now email =>
    show flagMono _ _ ((create_password_reset_token newTok now email db).1).refreshTokens ∧
      flagMono _ _ ((create_password_reset_token newTok now email db).1).resetTokens
    rcases reset_request_store_cases newTok now email db with h | ⟨uid, h⟩
    · rw [h]
      exact ⟨flagMono_refl _ _, flagMono_refl _ _⟩
    · rw [h]
      exact ⟨flagMono_refl _ _, flagMono_append _ _ _⟩
  | opResetConfirm hashPw now token newPw =>
    show flagMono _ _ ((verify_and_use_reset_token hashPw now token newPw db).1).refreshTokens ∧
      flagMono _ _ ((verify_and_use_reset_token hashPw now token newPw db).1).resetTokens
    rcases reset_confirm_store_cases hashPw now token newPw db with h | ⟨uid, h⟩
    · rw [h]
      exact ⟨flagMono_refl _ _, flagMono_refl _ _⟩
    · rw [h]
      exact ⟨flagMono_refl _ _, flagMono_updateFirst _ _ _ (fun y _ => rfl) _⟩

/-- C5: terminal token flags are monotonic and permanently blocking:
(1) if every stored row with a given refresh-token string is revoked,
every refresh attempt with that token fails, however often repeated;
(2) if every stored reset-token row with a given token string is used,
every confirm attempt with that token fails, even before its expiration;
(3) no operation of the core (register, login, refresh, logout, reset
request, reset confirm) ever resets a revoked or used flag to false. -/
theorem terminal_flags_permanent :
    (∀ (decode : String → Option JwtPayload) (now : Nat) (t : String) (db : Store),
      (∀ r ∈ db.refreshTokens, r.token = t → r.revoked = true) →
      ∃ e, refresh_access_token decode now t db = (db, .error e)) ∧
    (∀ (hashPw : String → String) (now : Nat) (t newPw : String) (db : Store),
      (∀ r ∈ db.resetTokens, r.token = t → r.used = true) →
      verify_and_use_reset_token hashPw now t newPw db =
        (db, .error invalidResetTokenException)) ∧
    (∀ (op : Op) (db : Store),
      flagMono RefreshToken.revoked db.refreshTokens (Op.apply db op).refreshTokens ∧
      flagMono PasswordResetToken.used db.resetTokens (Op.apply db op).resetTokens) := by
  refine ⟨?_, ?_, ?_⟩
  · intro decode now t db h
    obtain ⟨e, he⟩ := verify_refresh_token_all_revoked decode now t db h
    exact ⟨e, refresh_of_verify_error _ _ _ _ _ he⟩
  · exact reset_confirm_all_used
  · exact op_flags_mono

/-- Store with one revoked refresh token and one used reset token. -/
def c5Store : Store :=
  { users := [{ id := 1, email := "c5@test.com", name := "C5", role := "student",
                password_hash := "h", last_login := none }],
    refreshTokens := [{ token := "rv", user_id := 1, expires_at := 50, revoked := true }],
    resetTokens := [{ token := "us", user_id := 1, expires_at := 50, used := true }] }

/-- Witness for `terminal_flags_permanent`: the revoked token "rv" can
never refresh, the used (not yet expired) reset token "us" can never
confirm, and a logout operation keeps the revoked flag set. -/
theorem terminal_flags_permanent_witness :
    (∃ e, refresh_access_token allValidDecode 0 "rv" c5Store = (c5Store, .error e)) ∧
    verify_and_use_reset_token (fun s => s) 0 "us" "np" c5Store =
      (c5Store, .error invalidResetTokenException) ∧
    ∃ y, (Op.apply c5Store (Op.opLogout "zz")).refreshTokens[0]? = some y ∧
      (RefreshToken.revoked { token := "rv", user_id := 1, expires_at := 50, revoked := true } = true →
        RefreshToken.revoked y = true) :=
  ⟨terminal_flags_permanent.1 allValidDecode 0 "rv" c5Store (by decide),
   terminal_flags_permanent.2.1 (fun s => s) 0 "us" "np" c5Store (by decide),
   (terminal_flags_permanent.2.2 (Op.opLogout "zz") c5Store).1 0
     { token := "rv", user_id := 1, expires_at := 50, revoked := true } rfl⟩
